import Mathlib

/-!
Verification of the MicroSmart batch quality-gating and aggregation engine
(`src/api_server.py`), shallowly embedded in Lean 4.

Modelling conventions:
* Images are opaque; a decoded image is characterized by the data the engine
  actually reads from it: the classifier outcome on its harmonized form and its
  Laplacian-variance blur score (a rational standing in for the Python float).
* External effects (Telegram download, cv2 decode, YOLO inference) are inputs:
  each submitted reference is summarized by a `FetchOutcome` describing what the
  environment did for it.
* Python float arithmetic is modelled exactly over `ℚ`; `f"{x:.nf}"` formatting
  is modelled by `formatFixed n` (round half to even, then render).
-/

attribute [local semireducible] Rat.add Rat.mul Rat.inv Rat.sub Rat.ofScientific

namespace MicroSmart

/-- BLUR_THRESHOLD from `api_server.py` line 14. -/
def BLUR_THRESHOLD : ℚ := 100.0

/-- WBC_CONVERSION_FACTOR from `api_server.py` line 16. -/
def WBC_CONVERSION_FACTOR : ℚ := 2000

/-- RBC_CONVERSION_FACTOR from `api_server.py` line 17. -/
def RBC_CONVERSION_FACTOR : ℚ := 15000

/-- PLATELET_CONVERSION_FACTOR from `api_server.py` line 18. -/
def PLATELET_CONVERSION_FACTOR : ℚ := 15000

/-- CLASS_NAMES from `api_server.py` line 40. -/
def CLASS_NAMES : List String := ["RBC", "WBC", "Platelet"]

/-! ### Decimal formatting (model of Python `f"{x:.nf}"`) -/

/-- Character for a decimal digit `d < 10`. -/
def digitChar (d : Nat) : Char := Char.ofNat (48 + d)

/-- Decimal digits of `n`, most significant first, with explicit fuel
(structural recursion so that proofs can evaluate it by reduction).
`fuel > n` always suffices. -/
def natDigitsAux : Nat → Nat → List Char
  | 0, _ => []
  | fuel + 1, n =>
    if n < 10 then [digitChar n]
    else natDigitsAux fuel (n / 10) ++ [digitChar (n % 10)]

/-- Decimal digits of a natural number, most significant first. -/
def natDigits (n : Nat) : List Char := natDigitsAux (n + 1) n

/-- Round a rational to the nearest integer, ties to even:
the rounding used by Python float formatting. -/
def roundHalfEven (q : ℚ) : ℤ :=
  if Int.fract q < 1/2 then ⌊q⌋
  else if 1/2 < Int.fract q then ⌊q⌋ + 1
  else if 2 ∣ ⌊q⌋ then ⌊q⌋ else ⌊q⌋ + 1

/-- Character-list form of `f"{q:.prec f}"`: scale by `10^prec`, round half to
even, then render with exactly `prec` digits after the point (no point when
`prec = 0`). -/
def formatFixedChars (prec : Nat) (q : ℚ) : List Char :=
  let scaled := roundHalfEven (q * (10 : ℚ) ^ prec)
  let m := scaled.natAbs
  let sign : List Char := if scaled < 0 then ['-'] else []
  if prec = 0 then sign ++ natDigits m
  else
    let fd := natDigits (m % 10 ^ prec)
    sign ++ natDigits (m / 10 ^ prec) ++
      ('.' :: (List.replicate (prec - fd.length) '0' ++ fd))

/-- Model of Python `f"{q:.prec f}"`. -/
def formatFixed (prec : Nat) (q : ℚ) : String := ⟨formatFixedChars prec q⟩

/-- Every character of the string is a decimal digit. -/
def allDigits (s : String) : Prop := ∀ c ∈ s.data, c.isDigit

instance (s : String) : Decidable (allDigits s) := by
  unfold allDigits; infer_instance

/-! ### Data model of the batch engine

A submitted reference (`file_id`) is summarized by what the environment does
with it in the loop body of `analyze_batch` (`api_server.py` lines 140-172). -/

/-- Outcome of the `model(img_harmonized)` call plus the tally loop input
(`api_server.py` lines 157-165): either the call itself raises, or it returns
detections whose class indices are read off `results[0].boxes.cls`. -/
inductive ClassifierOutcome where
  /-- The call `model(img_harmonized)` raises (line 157, outside the `try`). -/
  | raisesAtCall : ClassifierOutcome
  /-- The call returns; `results[0].boxes.cls` yields these class indices. -/
  | boxes (cls : List Nat) : ClassifierOutcome
deriving DecidableEq

/-- What happened to one submitted reference. -/
inductive FetchOutcome where
  /-- `download_file_from_telegram` returned `None` (line 142). -/
  | downloadFailed : FetchOutcome
  /-- `cv2.imdecode` returned `None` (line 149). -/
  | decodeFailed : FetchOutcome
  /-- The image decoded; `result` is the classifier outcome on it and `blur`
  the Laplacian-variance score of its harmonized grayscale form (line 169). -/
  | decoded (result : ClassifierOutcome) (blur : ℚ) : FetchOutcome
deriving DecidableEq

/-- Per-class detection counts (the `total_counts` dict, line 133). -/
structure Counts where
  RBC : Nat
  WBC : Nat
  Platelet : Nat
deriving DecidableEq

/-- Componentwise sum of counts. -/
def Counts.add (a b : Counts) : Counts :=
  ⟨a.RBC + b.RBC, a.WBC + b.WBC, a.Platelet + b.Platelet⟩

/-- The zero-initialized count map. -/
def Counts.zero : Counts := ⟨0, 0, 0⟩

/-- `total_counts[CLASS_NAMES[i]] += 1` for one detection index (line 162-163). -/
def bump (c : Counts) (i : Nat) : Counts :=
  match i with
  | 0 => { c with RBC := c.RBC + 1 }
  | 1 => { c with WBC := c.WBC + 1 }
  | 2 => { c with Platelet := c.Platelet + 1 }
  | _ => c

/-- The tally loop of `api_server.py` lines 160-165: indices are consumed in
order; an index outside `CLASS_NAMES` raises `IndexError`, which the
`except` clause absorbs, ending the tally for this image but keeping the
increments already made. -/
def tallyBoxes (cls : List Nat) (c : Counts) : Counts :=
  match cls with
  | [] => c
  | i :: rest => if i < CLASS_NAMES.length then tallyBoxes rest (bump c i) else c

/-- The mutable loop state of `analyze_batch` (lines 133-137). -/
structure LoopState where
  total_counts : Counts
  total_blur_score : ℚ
  best_image_blur_score : ℚ
  images_processed : Nat
deriving DecidableEq

/-- The per-reference loop of `analyze_batch` (lines 140-172). `none` models an
exception escaping the loop: the only statement there not guarded by a
`try` that can raise is the classifier call itself. -/
def batchLoop (refs : List FetchOutcome) (s : LoopState) : Option LoopState :=
  match refs with
  | [] => some s
  | .downloadFailed :: rest => batchLoop rest s
  | .decodeFailed :: rest => batchLoop rest s
  | .decoded .raisesAtCall _ :: _ => none
  | .decoded (.boxes cls) blur :: rest =>
      batchLoop rest
        { total_counts := tallyBoxes cls s.total_counts
          total_blur_score := s.total_blur_score + blur
          best_image_blur_score :=
            if blur > s.best_image_blur_score then blur
            else s.best_image_blur_score
          images_processed := s.images_processed + 1 }

/-- Numeric and textual content of `report_data` (lines 197-222) that depends
on the batch. `sessionId` (random), `bestImage` (constant text and
`file_ids[0]`), `rejectionReasons` (always `[]`) and `llmSuggestions`
(constant) carry no batch-dependent analysis content and are left opaque;
the JSON key structure is recorded separately in `report_keys`. -/
structure Report where
  imageCount : Nat
  averageBlurScore : ℚ
  imagesRejected : Nat
  averageCountsRBC : ℚ
  averageCountsWBC : ℚ
  averageCountsPlatelet : ℚ
  WBC_x10e9_L : String
  RBC_x10e12_L : String
  PLT_x10e9_L : String
  flags : List String
deriving DecidableEq

/-- Result of the `/analyze_batch` endpoint. -/
inductive BatchResult where
  /-- An `{"error": msg}` JSON object was returned. -/
  | error (msg : String) : BatchResult
  /-- An exception escaped `analyze_batch` (the caller sees a 500, no JSON
  report). -/
  | uncaughtException : BatchResult
  /-- The rich JSON report was returned. -/
  | report (r : Report) : BatchResult
deriving DecidableEq

/-- Whether the result is a report. -/
def BatchResult.isReport : BatchResult → Bool
  | .report _ => true
  | _ => false

/-- Flag generation, `api_server.py` lines 186-194, in source order. -/
def flagsOf (wbc_concentration plt_concentration : ℚ) : List String :=
  (if wbc_concentration > 11.0 then
    ["Potential Leukocytosis (High WBC: " ++ formatFixed 1 wbc_concentration ++
      " x 10⁹/L)."] else []) ++
  (if wbc_concentration < 4.5 then
    ["Potential Leukopenia (Low WBC: " ++ formatFixed 1 wbc_concentration ++
      " x 10⁹/L)."] else []) ++
  (if plt_concentration < 150 then
    ["Potential Thrombocytopenia (Low Platelet: " ++
      formatFixed 0 plt_concentration ++ " x 10⁹/L)."] else []) ++
  (if plt_concentration > 450 then
    ["Potential Thrombocytosis (High Platelet: " ++
      formatFixed 0 plt_concentration ++ " x 10⁹/L)."] else [])

/-- Steps 6-9 of `analyze_batch` (lines 178-222): averages, concentrations,
flags and the JSON report, computed from the final loop state and the number
of submitted `file_ids`. -/
def mkReport (num_file_ids : Nat) (total_counts : Counts)
    (total_blur_score : ℚ) (images_processed : Nat) : Report :=
  let avg_RBC : ℚ := (total_counts.RBC : ℚ) / (images_processed : ℚ)
  let avg_WBC : ℚ := (total_counts.WBC : ℚ) / (images_processed : ℚ)
  let avg_Platelet : ℚ := (total_counts.Platelet : ℚ) / (images_processed : ℚ)
  let wbc_concentration := avg_WBC * WBC_CONVERSION_FACTOR / 1000
  let rbc_concentration := avg_RBC * RBC_CONVERSION_FACTOR / 1000000
  let plt_concentration := avg_Platelet * PLATELET_CONVERSION_FACTOR / 1000
  { imageCount := images_processed
    averageBlurScore := total_blur_score / (images_processed : ℚ)
    imagesRejected := num_file_ids - images_processed
    averageCountsRBC := avg_RBC
    averageCountsWBC := avg_WBC
    averageCountsPlatelet := avg_Platelet
    WBC_x10e9_L := formatFixed 1 wbc_concentration
    RBC_x10e12_L := formatFixed 2 rbc_concentration
    PLT_x10e9_L := formatFixed 0 plt_concentration
    flags := flagsOf wbc_concentration plt_concentration }

/-- The `/analyze_batch` endpoint (`api_server.py` lines 121-224). The model
flag mirrors the `if not model` guard; `refs` summarizes what the environment
does for each entry of `request.file_ids`, in order. -/
def analyze_batch (model_loaded : Bool) (refs : List FetchOutcome) : BatchResult :=
  if model_loaded = false then .error "Model is not loaded. Check server logs."
  else if refs.isEmpty then .error "No file_ids provided."
  else
    match batchLoop refs ⟨Counts.zero, 0, -1.0, 0⟩ with
    | none => .uncaughtException
    | some s =>
      if s.images_processed = 0 then
        .error "All images failed to download or decode."
      else
        .report (mkReport refs.length s.total_counts s.total_blur_score
          s.images_processed)

/-- Top-level keys of the `report_data` dict literal (lines 197-222). -/
def report_keys : List String :=
  ["sessionId", "imageCount", "imageQualityReport", "bestImage",
   "aggregatedAnalysis", "flags", "llmSuggestions"]

/-- Keys of the nested `imageQualityReport` object (lines 200-204). -/
def imageQualityReport_keys : List String :=
  ["averageBlurScore", "imagesRejected", "rejectionReasons"]

/-- Keys of the nested `aggregatedAnalysis` object (lines 209-216). -/
def aggregatedAnalysis_keys : List String :=
  ["averageCountsPerField", "finalConcentrations"]

/-- Result of the `/check_image` endpoint. -/
inductive CheckResult where
  /-- `{"status": "ERROR", "reason": reason}`. -/
  | error (reason : String) : CheckResult
  /-- `{"status": "OK", "blur_score": blur_score}`. -/
  | ok (blur_score : ℚ) : CheckResult
deriving DecidableEq

/-- The `/check_image` endpoint (`api_server.py` lines 95-118). The input is
`none` when `cv2.imdecode` fails, otherwise the blur score of the decoded,
harmonized, grayscaled image. -/
def check_image_quality (img : Option ℚ) : CheckResult :=
  match img with
  | none => .error "Could not decode image."
  | some blur_value =>
    if blur_value < BLUR_THRESHOLD then
      .error ("Image appears too blurry (Score: " ++ formatFixed 2 blur_value ++
        "). Please refocus.")
    else .ok blur_value

/-! ### Batch summaries used to state the claims

These recompute, directly over the list of submitted references, the
quantities the loop accumulates — ranging only over the references that
resolved and decoded. -/

/-- Number of references that resolved and decoded (the claims' `K`). -/
def numSuccess : List FetchOutcome → Nat
  | [] => 0
  | .decoded _ _ :: rest => numSuccess rest + 1
  | _ :: rest => numSuccess rest

/-- Sum of the blur scores of the successfully decoded references. -/
def blurSum : List FetchOutcome → ℚ
  | [] => 0
  | .decoded _ b :: rest => b + blurSum rest
  | _ :: rest => blurSum rest

/-- Per-class totals over the successfully decoded references only. -/
def sumTallies : List FetchOutcome → Counts
  | [] => Counts.zero
  | .decoded (.boxes cls) _ :: rest => (tallyBoxes cls Counts.zero).add (sumTallies rest)
  | _ :: rest => sumTallies rest

/-- The best-image blur tracking fold of lines 171-172. -/
def bestFold : List FetchOutcome → ℚ → ℚ
  | [], b => b
  | .decoded _ blur :: rest, b => bestFold rest (if blur > b then blur else b)
  | _ :: rest, b => bestFold rest b

/-- Whether some reference decoded but its classifier call raised. -/
def hasCallRaise : List FetchOutcome → Bool
  | [] => false
  | .decoded .raisesAtCall _ :: _ => true
  | _ :: rest => hasCallRaise rest

/-- Forget the blur score of a reference, keeping everything else. -/
def eraseBlur : FetchOutcome → FetchOutcome
  | .decoded c _ => .decoded c 0
  | o => o

/-- The flag threshold table in source order (`api_server.py` lines 186-194):
each predicate paired with the message it appends when true. -/
def flagTable (wbc_concentration plt_concentration : ℚ) : List (Bool × String) :=
  [(decide (wbc_concentration > 11.0),
    "Potential Leukocytosis (High WBC: " ++ formatFixed 1 wbc_concentration ++
      " x 10⁹/L)."),
   (decide (wbc_concentration < 4.5),
    "Potential Leukopenia (Low WBC: " ++ formatFixed 1 wbc_concentration ++
      " x 10⁹/L)."),
   (decide (plt_concentration < 150),
    "Potential Thrombocytopenia (Low Platelet: " ++
      formatFixed 0 plt_concentration ++ " x 10⁹/L)."),
   (decide (plt_concentration > 450),
    "Potential Thrombocytosis (High Platelet: " ++
      formatFixed 0 plt_concentration ++ " x 10⁹/L).")]

/-! ### Helper lemmas about the loop -/

lemma Counts.add_zero (c : Counts) : c.add Counts.zero = c := by
  simp [Counts.add, Counts.zero]

lemma Counts.zero_add (c : Counts) : Counts.zero.add c = c := by
  simp [Counts.add, Counts.zero]

lemma Counts.add_assoc (a b c : Counts) : (a.add b).add c = a.add (b.add c) := by
  simp [Counts.add, Nat.add_assoc]

lemma bump_add (a b : Counts) (i : Nat) : bump (a.add b) i = a.add (bump b i) := by
  rcases i with _ | _ | _ | i <;> simp [bump, Counts.add, Nat.add_assoc]

lemma tallyBoxes_acc (cls : List Nat) (c : Counts) :
    tallyBoxes cls c = c.add (tallyBoxes cls Counts.zero) := by
  induction cls generalizing c with
  | nil => simp [tallyBoxes, Counts.add_zero]
  | cons i rest ih =>
    simp only [tallyBoxes]
    by_cases h : i < CLASS_NAMES.length
    · rw [if_pos h, if_pos h, ih (bump c i), ih (bump Counts.zero i)]
      have hb : bump c i = c.add (bump Counts.zero i) := by
        rw [← bump_add, Counts.add_zero]
      rw [hb, Counts.add_assoc]
    · rw [if_neg h, if_neg h, Counts.add_zero]

lemma batchLoop_eq (refs : List FetchOutcome) (s : LoopState)
    (h : hasCallRaise refs = false) :
    batchLoop refs s = some
      { total_counts := s.total_counts.add (sumTallies refs)
        total_blur_score := s.total_blur_score + blurSum refs
        best_image_blur_score := bestFold refs s.best_image_blur_score
        images_processed := s.images_processed + numSuccess refs } := by
  induction refs generalizing s with
  | nil => simp [batchLoop, sumTallies, blurSum, bestFold, numSuccess, Counts.add_zero]
  | cons o rest ih =>
    cases o with
    | downloadFailed =>
      simp only [hasCallRaise] at h
      simp only [batchLoop, sumTallies, blurSum, bestFold, numSuccess]
      exact ih s h
    | decodeFailed =>
      simp only [hasCallRaise] at h
      simp only [batchLoop, sumTallies, blurSum, bestFold, numSuccess]
      exact ih s h
    | decoded cres blur =>
      cases cres with
      | raisesAtCall => simp [hasCallRaise] at h
      | boxes cls =>
        simp only [hasCallRaise] at h
        simp only [batchLoop, sumTallies, blurSum, bestFold, numSuccess]
        rw [ih _ h]
        simp only [Option.some.injEq, LoopState.mk.injEq]
        refine ⟨?_, by ring, by trivial, by omega⟩
        rw [tallyBoxes_acc cls s.total_counts, Counts.add_assoc]

lemma batchLoop_none_iff (refs : List FetchOutcome) (s : LoopState) :
    batchLoop refs s = none ↔ hasCallRaise refs = true := by
  induction refs generalizing s with
  | nil => simp [batchLoop, hasCallRaise]
  | cons o rest ih =>
    cases o with
    | downloadFailed => simpa [batchLoop, hasCallRaise] using ih s
    | decodeFailed => simpa [batchLoop, hasCallRaise] using ih s
    | decoded cres blur =>
      cases cres with
      | raisesAtCall => simp [batchLoop, hasCallRaise]
      | boxes cls => simpa [batchLoop, hasCallRaise] using ih _

lemma numSuccess_le_length (refs : List FetchOutcome) :
    numSuccess refs ≤ refs.length := by
  induction refs with
  | nil => simp [numSuccess]
  | cons o rest ih => cases o <;> simp [numSuccess] <;> omega

/-- Inversion: whenever `analyze_batch` returns a report, no classifier call
raised, at least one image was processed, and the report is exactly the one
built from the per-success totals. -/
lemma analyze_report_inv (refs : List FetchOutcome) (r : Report)
    (h : analyze_batch true refs = .report r) :
    hasCallRaise refs = false ∧ refs ≠ [] ∧ numSuccess refs ≠ 0 ∧
      r = mkReport refs.length (sumTallies refs) (blurSum refs) (numSuccess refs) := by
  unfold analyze_batch at h
  by_cases hE : refs.isEmpty
  · simp [hE] at h
  · rw [if_neg (by simp), if_neg hE] at h
    have hcr : hasCallRaise refs = false := by
      cases hB : batchLoop refs ⟨Counts.zero, 0, -1.0, 0⟩ with
      | none => rw [hB] at h; cases h
      | some s =>
        by_contra hcr'
        have := (batchLoop_none_iff refs ⟨Counts.zero, 0, -1.0, 0⟩).mpr
          (by simpa using hcr')
        rw [this] at hB; cases hB
    rw [batchLoop_eq refs _ hcr] at h
    simp only [Counts.zero_add, zero_add, Nat.zero_add] at h
    by_cases hp : numSuccess refs = 0
    · rw [if_pos (by simpa using hp)] at h; cases h
    · rw [if_neg (by simpa using hp)] at h
      cases h
      exact ⟨hcr, by simpa using hE, hp, rfl⟩

/-! ### Helper lemmas about decimal formatting -/

lemma digitChar_isDigit (d : Nat) (h : d < 10) : (digitChar d).isDigit = true := by
  interval_cases d <;> decide

lemma natDigitsAux_isDigit (fuel n : Nat) :
    ∀ c ∈ natDigitsAux fuel n, c.isDigit = true := by
  induction fuel generalizing n with
  | zero => simp [natDigitsAux]
  | succ f ih =>
    simp only [natDigitsAux]
    by_cases h : n < 10
    · rw [if_pos h]
      intro c hc
      rw [List.mem_singleton] at hc
      subst hc
      exact digitChar_isDigit n h
    · rw [if_neg h]
      intro c hc
      rcases List.mem_append.mp hc with h1 | h2
      · exact ih _ c h1
      · rw [List.mem_singleton] at h2
        subst h2
        exact digitChar_isDigit _ (Nat.mod_lt _ (by omega))

lemma natDigitsAux_length_le (fuel : Nat) :
    ∀ n k, n < fuel → n < 10 ^ k → 1 ≤ k → (natDigitsAux fuel n).length ≤ k := by
  induction fuel with
  | zero => omega
  | succ f ih =>
    intro n k hf hk h1
    simp only [natDigitsAux]
    by_cases h : n < 10
    · rw [if_pos h]; simpa using h1
    · rw [if_neg h]
      have hk2 : 2 ≤ k := by
        rcases Nat.lt_or_ge k 2 with hlt | hge
        · interval_cases k <;> simp_all <;> omega
        · exact hge
      have hdf : n / 10 < f := by
        have := Nat.div_lt_self (by omega : 0 < n) (by omega : 1 < 10)
        omega
      have hdk : n / 10 < 10 ^ (k - 1) := by
        rw [Nat.div_lt_iff_lt_mul (by omega : 0 < 10)]
        have hpow : 10 ^ (k - 1) * 10 = 10 ^ k := by
          rw [← pow_succ]
          congr 1
          omega
        omega
      have := ih (n / 10) (k - 1) hdf hdk (by omega)
      rw [List.length_append, List.length_singleton]
      omega

lemma natDigits_isDigit (n : Nat) : ∀ c ∈ natDigits n, c.isDigit = true :=
  natDigitsAux_isDigit _ _

lemma natDigits_length_le (n k : Nat) (hk : n < 10 ^ k) (h1 : 1 ≤ k) :
    (natDigits n).length ≤ k :=
  natDigitsAux_length_le (n + 1) n k (by omega) hk h1

lemma roundHalfEven_nonneg (q : ℚ) (h : 0 ≤ q) : 0 ≤ roundHalfEven q := by
  unfold roundHalfEven
  have h0 : (0 : ℤ) ≤ ⌊q⌋ := Int.floor_nonneg.mpr h
  split_ifs <;> omega

lemma mk_append (a b : List Char) : (⟨a⟩ : String) ++ ⟨b⟩ = ⟨a ++ b⟩ := rfl

/-- With a nonnegative argument and positive precision, the formatted string is
digits, a single point, then exactly `prec` digits. -/
lemma formatFixed_decomp (prec : Nat) (q : ℚ) (hp : 0 < prec) (hq : 0 ≤ q) :
    ∃ a b : String,
      formatFixed prec q = a ++ "." ++ b ∧ b.length = prec ∧
      (∀ c ∈ a.data, c.isDigit = true) ∧ (∀ c ∈ b.data, c.isDigit = true) := by
  have hsc : 0 ≤ roundHalfEven (q * (10 : ℚ) ^ prec) :=
    roundHalfEven_nonneg _ (by positivity)
  set m := (roundHalfEven (q * (10 : ℚ) ^ prec)).natAbs with hm
  set fd := natDigits (m % 10 ^ prec) with hfd
  have hfdlen : fd.length ≤ prec :=
    natDigits_length_le _ prec (Nat.mod_lt _ (Nat.pos_pow_of_pos _ (by omega))) hp
  refine ⟨⟨natDigits (m / 10 ^ prec)⟩,
    ⟨List.replicate (prec - fd.length) '0' ++ fd⟩, ?_, ?_, ?_, ?_⟩
  · rw [show ("." : String) = ⟨['.']⟩ from rfl, mk_append, mk_append]
    simp only [formatFixed, formatFixedChars, ← hm, ← hfd]
    rw [if_neg (by omega : ¬ (roundHalfEven (q * (10 : ℚ) ^ prec)) < 0),
      if_neg (by omega : ¬ prec = 0)]
    congr 1
    simp [List.append_assoc]
  · show (List.replicate (prec - fd.length) '0' ++ fd).length = prec
    rw [List.length_append, List.length_replicate]
    omega
  · exact natDigits_isDigit _
  · intro c hc
    rcases List.mem_append.mp hc with h1 | h2
    · rw [List.eq_of_mem_replicate h1]; decide
    · exact natDigits_isDigit _ c h2

/-- With a nonnegative argument and precision `0`, the formatted string is
digits only (in particular it has no decimal point). -/
lemma formatFixed_zero_digits (q : ℚ) (hq : 0 ≤ q) :
    ∀ c ∈ (formatFixed 0 q).data, c.isDigit = true := by
  have hsc : 0 ≤ roundHalfEven (q * (10 : ℚ) ^ (0 : ℕ)) :=
    roundHalfEven_nonneg _ (by positivity)
  intro c hc
  simp only [formatFixed, formatFixedChars] at hc
  rw [if_neg (by omega : ¬ (roundHalfEven (q * (10 : ℚ) ^ (0 : ℕ))) < 0)] at hc
  simp only [if_true, List.nil_append] at hc
  exact natDigits_isDigit _ c hc

/-- Changing only blur scores changes none of the success count, tallies or
length of a batch. -/
lemma eraseBlur_invariants (l l' : List FetchOutcome)
    (h : l.map eraseBlur = l'.map eraseBlur) :
    numSuccess l = numSuccess l' ∧ sumTallies l = sumTallies l' ∧
      l.length = l'.length := by
  induction l generalizing l' with
  | nil =>
    cases l' with
    | nil => exact ⟨rfl, rfl, rfl⟩
    | cons o' rest' => simp at h
  | cons o rest ih =>
    cases l' with
    | nil => simp at h
    | cons o' rest' =>
      simp only [List.map_cons, List.cons.injEq] at h
      obtain ⟨h1, h2⟩ := h
      obtain ⟨e1, e2, e3⟩ := ih rest' h2
      cases o with
      | downloadFailed =>
        cases o' with
        | downloadFailed =>
          exact ⟨by simp [numSuccess, e1], by simp [sumTallies, e2], by simp [e3]⟩
        | decodeFailed => exact absurd h1 (by simp [eraseBlur])
        | decoded c b => exact absurd h1 (by simp [eraseBlur])
      | decodeFailed =>
        cases o' with
        | downloadFailed => exact absurd h1 (by simp [eraseBlur])
        | decodeFailed =>
          exact ⟨by simp [numSuccess, e1], by simp [sumTallies, e2], by simp [e3]⟩
        | decoded c b => exact absurd h1 (by simp [eraseBlur])
      | decoded c b =>
        cases o' with
        | downloadFailed => exact absurd h1 (by simp [eraseBlur])
        | decodeFailed => exact absurd h1 (by simp [eraseBlur])
        | decoded c' b' =>
          have hc : c = c' := by simpa [eraseBlur] using h1
          subst hc
          cases c with
          | raisesAtCall =>
            exact ⟨by simp [numSuccess, e1], by simp [sumTallies, e2], by simp [e3]⟩
          | boxes cls =>
            exact ⟨by simp [numSuccess, e1], by simp [sumTallies, e2], by simp [e3]⟩

/-- Batches in which every reference failed to download or decode have no
classifier raise and no success. -/
lemma allFailed_summaries (refs : List FetchOutcome)
    (hall : ∀ o ∈ refs, o = .downloadFailed ∨ o = .decodeFailed) :
    hasCallRaise refs = false ∧ numSuccess refs = 0 := by
  induction refs with
  | nil => exact ⟨rfl, rfl⟩
  | cons o rest ih =>
    obtain ⟨ih1, ih2⟩ := ih (fun x hx => hall x (List.mem_cons_of_mem _ hx))
    rcases hall o (List.mem_cons_self _ _) with h | h <;> subst h <;>
      exact ⟨by simpa [hasCallRaise], by simpa [numSuccess]⟩

/-! ### The claims -/

/-- C1: for every batch whose analysis returns a report, at least one of the
`N` references was processed, and each per-class average and the average blur
score are the corresponding totals over exactly the `K` references that
resolved and decoded, divided by `K`; references that failed to download or
decode contribute nothing (the totals `sumTallies`, `blurSum` and the count
`numSuccess` range over successful references only). -/
theorem analyze_batch_averages_over_successes (refs : List FetchOutcome)
    (r : Report) (h : analyze_batch true refs = .report r) :
    1 ≤ numSuccess refs ∧
    r.imageCount = numSuccess refs ∧
    r.averageCountsRBC = ((sumTallies refs).RBC : ℚ) / (numSuccess refs : ℚ) ∧
    r.averageCountsWBC = ((sumTallies refs).WBC : ℚ) / (numSuccess refs : ℚ) ∧
    r.averageCountsPlatelet =
      ((sumTallies refs).Platelet : ℚ) / (numSuccess refs : ℚ) ∧
    r.averageBlurScore = blurSum refs / (numSuccess refs : ℚ) := by
  obtain ⟨-, -, hk, hr⟩ := analyze_report_inv refs r h
  subst hr
  exact ⟨by omega, rfl, rfl, rfl, rfl, rfl⟩

/-- Witness for C1 on the concrete batch `[downloadFailed, decoded]`. -/
theorem analyze_batch_averages_over_successes_witness :
    (mkReport 2 ⟨2, 1, 1⟩ (150 : ℚ) 1).averageCountsWBC =
      ((sumTallies [FetchOutcome.downloadFailed,
        .decoded (.boxes [0, 0, 1, 2]) 150]).WBC : ℚ) /
      ((numSuccess [FetchOutcome.downloadFailed,
        .decoded (.boxes [0, 0, 1, 2]) 150] : ℕ) : ℚ) :=
  (analyze_batch_averages_over_successes
    [FetchOutcome.downloadFailed, .decoded (.boxes [0, 0, 1, 2]) 150]
    (mkReport 2 ⟨2, 1, 1⟩ (150 : ℚ) 1) (by decide)).2.2.2.1

/-- C2 counterexample: the claim says the report contains per-image counts
entries; on this batch with one successfully tallied image the engine does
return a report, but neither the top-level report keys nor the nested
`aggregatedAnalysis` or `imageQualityReport` objects contain any per-image
counts field (`individualImageReports` as read by the bot, or
`perImageCounts` as the spec names it). -/
theorem report_per_image_counts_cex :
    (analyze_batch true [.decoded (.boxes [0]) 150]).isReport = true ∧
    "individualImageReports" ∉ report_keys ∧
    "perImageCounts" ∉ report_keys ∧
    "perImageCounts" ∉ aggregatedAnalysis_keys ∧
    "perImageCounts" ∉ imageQualityReport_keys := by decide

/-- C2 amended: the aggregated report never contains per-image counts entries
at all: whenever `analyze_batch` returns a report, its JSON object has the
fixed key set of the `report_data` literal, which has no per-image counts
field anywhere (so the bot's per-field counts section always takes its
"No individual counts available" fallback). -/
theorem report_has_no_per_image_counts (refs : List FetchOutcome) (r : Report)
    (h : analyze_batch true refs = .report r) :
    "individualImageReports" ∉ report_keys ∧
    "perImageCounts" ∉ report_keys ∧
    "perImageCounts" ∉ aggregatedAnalysis_keys := by
  exact ⟨by decide, by decide, by decide⟩

/-- Witness for C2's amended claim on a concrete one-image batch. -/
theorem report_has_no_per_image_counts_witness :
    "individualImageReports" ∉ report_keys ∧
    "perImageCounts" ∉ report_keys ∧
    "perImageCounts" ∉ aggregatedAnalysis_keys :=
  report_has_no_per_image_counts [.decoded (.boxes [0]) 150]
    (mkReport 1 ⟨1, 0, 0⟩ (150 : ℚ) 1) (by decide)

/-- C3 counterexample: the claim says a classifier failure on one image is
absorbed, the image excluded, and processing continues. On this two-image
batch where the classifier call raises on the first image, the exception
escapes `analyze_batch` (the second, healthy image is never reported and the
caller gets the raised exception, not a report). -/
theorem classifier_raise_not_absorbed_cex :
    analyze_batch true
      [.decoded .raisesAtCall 0, .decoded (.boxes [0]) 150] =
      .uncaughtException := by decide

/-- C3 amended: a failure of the classifier call itself is not absorbed:
`analyze_batch` raises to its caller exactly when the batch is non-empty and
some decoded image's classifier call raises, and then no report is produced.
(Errors while iterating the classifier's results, by contrast, are absorbed
by the `try`/`except` around the tally, with the image still counted as
processed.) -/
theorem classifier_raise_aborts_batch (refs : List FetchOutcome) :
    analyze_batch true refs = .uncaughtException ↔
      refs ≠ [] ∧ hasCallRaise refs = true := by
  unfold analyze_batch
  rw [if_neg (by simp)]
  by_cases hE : refs.isEmpty
  · have : refs = [] := by simpa using hE
    subst this
    simp
  · have hne : refs ≠ [] := fun hnil => hE (by simp [hnil])
    rw [if_neg hE]
    cases hB : batchLoop refs ⟨Counts.zero, 0, -1.0, 0⟩ with
    | none =>
      have := (batchLoop_none_iff refs _).mp hB
      simp [this, hne]
    | some s =>
      have hcr : hasCallRaise refs = false := by
        by_contra hc
        rw [(batchLoop_none_iff refs ⟨Counts.zero, 0, -1.0, 0⟩).mpr
          (by simpa using hc)] at hB
        cases hB
      by_cases hp : s.images_processed = 0 <;> simp [hp, hcr]

/-- C4: the single-image quality check accepts a decodable image exactly when
its blur score reaches the threshold `100.0`; below threshold it returns the
ERROR verdict whose reason is exactly the blurry-image string with the score
rendered to two decimal places (a digit string, one point, two digits). -/
theorem check_image_quality_blur_gate (v : ℚ) :
    BLUR_THRESHOLD = 100 ∧
    (BLUR_THRESHOLD ≤ v → check_image_quality (some v) = .ok v) ∧
    (v < BLUR_THRESHOLD →
      check_image_quality (some v) =
        .error ("Image appears too blurry (Score: " ++ formatFixed 2 v ++
          "). Please refocus.")) ∧
    (0 ≤ v → ∃ a b : String,
      formatFixed 2 v = a ++ "." ++ b ∧ b.length = 2 ∧
      (∀ c ∈ a.data, c.isDigit = true) ∧ (∀ c ∈ b.data, c.isDigit = true)) := by
  refine ⟨by decide, ?_, ?_, fun hv => formatFixed_decomp 2 v (by omega) hv⟩
  · intro hge
    simp [check_image_quality, not_lt.mpr hge]
  · intro hlt
    simp [check_image_quality, hlt]

/-- Witness for C4: the spec's own example, blur score 42. -/
theorem check_image_quality_blur_gate_witness :
    check_image_quality (some 42) =
      .error "Image appears too blurry (Score: 42.00). Please refocus." := by
  have h := (check_image_quality_blur_gate 42).2.2.1 (by decide)
  rw [h]
  decide

/-- C5: in every report, the WBC concentration string is the per-field WBC
average times 2000 over 1000 formatted to one decimal, the RBC string the RBC
average times 15000 over 1000000 formatted to two decimals, and the platelet
string the platelet average times 15000 over 1000 formatted to zero decimals;
whatever the magnitudes, the WBC string has exactly one digit after its
point, the RBC string exactly two, and the platelet string no point at
all. -/
theorem concentrations_formula_and_precision (refs : List FetchOutcome)
    (r : Report) (h : analyze_batch true refs = .report r) :
    r.WBC_x10e9_L = formatFixed 1
      (((sumTallies refs).WBC : ℚ) / (numSuccess refs : ℚ) *
        WBC_CONVERSION_FACTOR / 1000) ∧
    r.RBC_x10e12_L = formatFixed 2
      (((sumTallies refs).RBC : ℚ) / (numSuccess refs : ℚ) *
        RBC_CONVERSION_FACTOR / 1000000) ∧
    r.PLT_x10e9_L = formatFixed 0
      (((sumTallies refs).Platelet : ℚ) / (numSuccess refs : ℚ) *
        PLATELET_CONVERSION_FACTOR / 1000) ∧
    (∃ a b : String, r.WBC_x10e9_L = a ++ "." ++ b ∧ b.length = 1 ∧
      (∀ c ∈ a.data, c.isDigit = true) ∧ (∀ c ∈ b.data, c.isDigit = true)) ∧
    (∃ a b : String, r.RBC_x10e12_L = a ++ "." ++ b ∧ b.length = 2 ∧
      (∀ c ∈ a.data, c.isDigit = true) ∧ (∀ c ∈ b.data, c.isDigit = true)) ∧
    (∀ c ∈ r.PLT_x10e9_L.data, c.isDigit = true) := by
  obtain ⟨-, -, -, hr⟩ := analyze_report_inv refs r h
  subst hr
  have hW : (0 : ℚ) ≤ ((sumTallies refs).WBC : ℚ) / (numSuccess refs : ℚ) *
      WBC_CONVERSION_FACTOR / 1000 := by
    unfold WBC_CONVERSION_FACTOR
    positivity
  have hR : (0 : ℚ) ≤ ((sumTallies refs).RBC : ℚ) / (numSuccess refs : ℚ) *
      RBC_CONVERSION_FACTOR / 1000000 := by
    unfold RBC_CONVERSION_FACTOR
    positivity
  have hP : (0 : ℚ) ≤ ((sumTallies refs).Platelet : ℚ) / (numSuccess refs : ℚ) *
      PLATELET_CONVERSION_FACTOR / 1000 := by
    unfold PLATELET_CONVERSION_FACTOR
    positivity
  exact ⟨rfl, rfl, rfl, formatFixed_decomp 1 _ (by omega) hW,
    formatFixed_decomp 2 _ (by omega) hR, formatFixed_zero_digits _ hP⟩

/-- Witness for C5 on a concrete one-image batch with counts RBC 2, WBC 1,
Platelet 1. -/
theorem concentrations_formula_and_precision_witness :
    (mkReport 1 ⟨2, 1, 1⟩ (150 : ℚ) 1).WBC_x10e9_L = formatFixed 1
      (((sumTallies [FetchOutcome.decoded (.boxes [0, 0, 1, 2]) 150]).WBC : ℚ) /
        ((numSuccess [FetchOutcome.decoded (.boxes [0, 0, 1, 2]) 150] : ℕ) : ℚ) *
        WBC_CONVERSION_FACTOR / 1000) :=
  (concentrations_formula_and_precision
    [FetchOutcome.decoded (.boxes [0, 0, 1, 2]) 150]
    (mkReport 1 ⟨2, 1, 1⟩ (150 : ℚ) 1) (by decide)).1

/-- C6 counterexample: the claim fixes the message pattern of the spec table,
"Potential Leukocytosis (High WBC: {v} x10⁹/L)."; at WBC concentration 12 the
engine emits the leukocytosis flag with " x 10⁹/L" (a space between "x" and
"10⁹"), which is not the table's string. -/
theorem flag_message_format_cex :
    flagsOf 12 200 = ["Potential Leukocytosis (High WBC: 12.0 x 10⁹/L)."] ∧
    "Potential Leukocytosis (High WBC: 12.0 x 10⁹/L)." ≠
      "Potential Leukocytosis (High WBC: 12.0 x10⁹/L)." := by decide

/-- C6 amended: the flag list is exactly the messages of the fixed table
(WBC > 11.0 leukocytosis, WBC < 4.5 leukopenia, platelet < 150
thrombocytopenia, platelet > 450 thrombocytosis, with units rendered
" x 10⁹/L") whose strict predicate holds, in that order; boundary values
(WBC exactly 11.0 or 4.5, platelet exactly 150 or 450) trigger no flag. -/
theorem flags_fixed_order_strict (wbc plt : ℚ) :
    flagsOf wbc plt =
      ((flagTable wbc plt).filter (fun e => e.1)).map (fun e => e.2) ∧
    flagsOf 11 200 = [] ∧ flagsOf 4.5 200 = [] ∧
    flagsOf 7 150 = [] ∧ flagsOf 7 450 = [] := by
  refine ⟨?_, by decide, by decide, by decide, by decide⟩
  by_cases h1 : wbc > 11.0 <;> by_cases h2 : wbc < 4.5 <;>
    by_cases h3 : plt < 150 <;> by_cases h4 : plt > 450 <;>
    simp [flagsOf, flagTable, h1, h2, h3, h4]

/-- C7: a non-empty batch in which every reference fails to download or
decode produces the distinct "All images failed to download or decode."
error and no report. -/
theorem analyze_batch_all_failed_error (refs : List FetchOutcome)
    (hne : refs ≠ [])
    (hall : ∀ o ∈ refs, o = .downloadFailed ∨ o = .decodeFailed) :
    analyze_batch true refs =
      .error "All images failed to download or decode." := by
  obtain ⟨h1, h2⟩ := allFailed_summaries refs hall
  unfold analyze_batch
  rw [if_neg (by simp), if_neg (by simpa using hne)]
  rw [batchLoop_eq refs _ h1]
  simp [h2]

/-- Witness for C7 on the one-element batch whose download fails. -/
theorem analyze_batch_all_failed_error_witness :
    analyze_batch true [FetchOutcome.downloadFailed] =
      .error "All images failed to download or decode." :=
  analyze_batch_all_failed_error [FetchOutcome.downloadFailed]
    (by simp) (by decide)

/-- C8: the empty batch fails immediately with the distinct
"No file_ids provided." error, which is neither the all-failed error nor any
report. -/
theorem analyze_batch_empty_error :
    analyze_batch true [] = .error "No file_ids provided." ∧
    "No file_ids provided." ≠ "All images failed to download or decode." ∧
    ∀ r : Report, BatchResult.error "No file_ids provided." ≠ .report r := by
  refine ⟨by decide, by decide, ?_⟩
  intro r hr
  cases hr

/-- C9: in every report over `N` submitted references with `K` processed,
`imagesRejected` is `N - K`, and rejected plus processed images account for
exactly (in particular never more than) the submitted references. -/
theorem analyze_batch_imagesRejected (refs : List FetchOutcome) (r : Report)
    (h : analyze_batch true refs = .report r) :
    r.imagesRejected = refs.length - numSuccess refs ∧
    r.imagesRejected + r.imageCount = refs.length ∧
    r.imagesRejected + r.imageCount ≤ refs.length := by
  obtain ⟨-, -, -, hr⟩ := analyze_report_inv refs r h
  subst hr
  have hle := numSuccess_le_length refs
  refine ⟨rfl, ?_, ?_⟩
  · show refs.length - numSuccess refs + numSuccess refs = refs.length
    omega
  · show refs.length - numSuccess refs + numSuccess refs ≤ refs.length
    omega

/-- Witness for C9 on a batch of two references with one decode failure. -/
theorem analyze_batch_imagesRejected_witness :
    (mkReport 2 ⟨0, 0, 0⟩ (100 : ℚ) 1).imagesRejected =
      [FetchOutcome.decodeFailed, .decoded (.boxes []) 100].length -
        numSuccess [FetchOutcome.decodeFailed, .decoded (.boxes []) 100] :=
  (analyze_batch_imagesRejected
    [FetchOutcome.decodeFailed, .decoded (.boxes []) 100]
    (mkReport 2 ⟨0, 0, 0⟩ (100 : ℚ) 1) (by decide)).1

/-- C10: the batch path applies no blur-threshold rejection: every reference
that resolves and decodes is counted as processed whatever its blur score,
and replacing the blur scores of a batch by any others (same download,
decode and classifier outcomes) leaves the image count, rejected count,
per-class averages, concentration strings and flags of the report unchanged
— blur only feeds the average blur score and the best-image tracking. -/
theorem batch_path_ignores_blur_threshold (refs refs' : List FetchOutcome)
    (r r' : Report) (h : analyze_batch true refs = .report r)
    (h' : analyze_batch true refs' = .report r')
    (hshape : refs.map eraseBlur = refs'.map eraseBlur) :
    r.imageCount = numSuccess refs ∧
    r'.imageCount = r.imageCount ∧
    r'.imagesRejected = r.imagesRejected ∧
    r'.averageCountsRBC = r.averageCountsRBC ∧
    r'.averageCountsWBC = r.averageCountsWBC ∧
    r'.averageCountsPlatelet = r.averageCountsPlatelet ∧
    r'.WBC_x10e9_L = r.WBC_x10e9_L ∧
    r'.RBC_x10e12_L = r.RBC_x10e12_L ∧
    r'.PLT_x10e9_L = r.PLT_x10e9_L ∧
    r'.flags = r.flags := by
  obtain ⟨-, -, -, hr⟩ := analyze_report_inv refs r h
  obtain ⟨-, -, -, hr'⟩ := analyze_report_inv refs' r' h'
  obtain ⟨e1, e2, e3⟩ := eraseBlur_invariants refs refs' hshape
  subst hr hr'
  rw [← e1, ← e2, ← e3]
  exact ⟨rfl, rfl, rfl, rfl, rfl, rfl, rfl, rfl, rfl, rfl⟩

/-- Witness for C10: the same one-image batch with blur score 20 (far below
the threshold 100) and with blur score 500; the image is processed in both
and the numeric report content agrees. -/
theorem batch_path_ignores_blur_threshold_witness :
    (mkReport 1 ⟨1, 0, 0⟩ (20 : ℚ) 1).imageCount =
      numSuccess [FetchOutcome.decoded (.boxes [0]) 20] :=
  (batch_path_ignores_blur_threshold
    [FetchOutcome.decoded (.boxes [0]) 20]
    [FetchOutcome.decoded (.boxes [0]) 500]
    (mkReport 1 ⟨1, 0, 0⟩ (20 : ℚ) 1)
    (mkReport 1 ⟨1, 0, 0⟩ (500 : ℚ) 1)
    (by decide) (by decide) (by decide)).1

end MicroSmart
